import Mathlib

/-!
# Verification of the web-seeker-agent orchestration loop

Shallow embedding of the two agent variants of the repository
(`src/agent/agent.py` and `src/wiseguy/agent.py`) together with their CLI
entry points, and proofs of the specified properties of the orchestration
loop: routing on tool calls, tool dispatch, the recursion bound, system
prompt handling and the CLI behaviour.

The LLM itself is external: every driver is parametrised by a model
oracle `List Message → String × List ToolCall` standing for
`self.model.invoke`, which returns the content and the `tool_calls` of
the next assistant message.  Tool capabilities are `String → String`
(arguments in, stringified result out).  Python attribute and index
errors (`[-1]` on an empty list, `.tool_calls` on an object without that
attribute) are modelled by `Option`/`RunErr`.
-/

namespace WebSeeker

/-- A tool call requested by the model: `{"id": ..., "name": ..., "args": ...}`
(`args` kept opaque as a string). -/
structure ToolCall where
  id : String
  name : String
  args : String
deriving DecidableEq, Repr

/-- A LangChain tool: a name plus an invocable capability.  The capability's
return value is modelled already stringified (the source applies `str` to it
before building the `ToolMessage`). -/
structure Tool where
  name : String
  invoke : String → String

/-- Messages: `AnyMessage` is one of `SystemMessage`, `HumanMessage`, `AIMessage` (which
carries `tool_calls`) or `ToolMessage` (which carries `tool_call_id` and
`name`). -/
inductive Message where
  | system (content : String)
  | human (content : String)
  | ai (content : String) (tool_calls : List ToolCall)
  | tool (tool_call_id : String) (name : String) (content : String)
deriving DecidableEq, Repr

/-- Python attribute access `m.tool_calls`: only `AIMessage` has it;
`none` models the `AttributeError` on every other message kind. -/
def Message.tool_calls : Message → Option (List ToolCall)
  | .ai _ tcs => some tcs
  | _ => none

/-- Python attribute access `m.tool_call_id` (only on `ToolMessage`). -/
def Message.tool_call_id : Message → Option String
  | .tool i _ _ => some i
  | _ => none

/-- Python attribute access `m.name` (only on `ToolMessage` here). -/
def Message.name : Message → Option String
  | .tool _ n _ => some n
  | _ => none

/-- Whether a message is a `SystemMessage`. -/
def Message.isSystem : Message → Bool
  | .system _ => true
  | _ => false

/-- The fixed retry-instruction string of both `take_action` implementations:
`"nombre de tool no válida, reintentar"`. -/
def invalidToolName : String := "nombre de tool no válida, reintentar"

/-- The tool registry `{t.name: t for t in tools}`: a Python dict
comprehension, so a later tool with the same name overrides an earlier one. -/
def toolsDict (tools : List Tool) (n : String) : Option Tool :=
  tools.foldl (fun acc t => if t.name == n then some t else acc) none

/-- One iteration of the `for t in tool_calls` loop of `take_action`:
if the name is not in the registry the result is the fixed retry string,
otherwise the tool is invoked on the call's args; either way a `ToolMessage`
with the call's id and name is produced. -/
def runToolCall (tools : List Tool) (t : ToolCall) : Message :=
  let result :=
    match toolsDict tools t.name with
    | none => invalidToolName
    | some tool => tool.invoke t.args
  Message.tool t.id t.name result

/-- The whole `for` loop of `take_action`: one `ToolMessage` per call, in
order. -/
def executeToolCalls (tools : List Tool) (tcs : List ToolCall) : List Message :=
  tcs.map (runToolCall tools)

/-- Python `str.strip()`: the string with leading and trailing whitespace
removed (modelled over the character list so it is kernel-evaluable). -/
def pyStrip (s : String) : String :=
  ⟨((s.data.dropWhile Char.isWhitespace).reverse.dropWhile
      Char.isWhitespace).reverse⟩

/-- Python `str.lower()`: every character lower-cased. -/
def pyLower (s : String) : String :=
  ⟨s.data.map Char.toLower⟩

/-- Runtime failures of the embedded graph execution:
`recursionLimitExceeded` models LangGraph's `GraphRecursionError` (the spec's
`RecursionLimitExceeded`), the other two model Python `AttributeError` /
`IndexError`. -/
inductive RunErr where
  | recursionLimitExceeded
  | attributeError
  | indexError
deriving DecidableEq, Repr

namespace SrcAgent

/-- Nodes of the `src/agent` graph: `"llm"`, `"action"` and LangGraph's
`END`. -/
inductive ANode where
  | llm
  | action
  | END
deriving DecidableEq, Repr

/-- The conditional-edge mapping `{True: "action", False: END}` attached to
the `"llm"` node. -/
def llmConditionalEdge (b : Bool) : ANode :=
  if b then ANode.action else ANode.END

/-- The unconditional edge `graph.add_edge("action", "llm")`. -/
def actionEdge : ANode := ANode.llm

/-- Embeds `Agent.exists_action`: `len(state["messages"][-1].tool_calls) > 0`.
`none` models the Python error when the list is empty or the last message
has no `tool_calls` attribute. -/
def exists_action (messages : List Message) : Option Bool :=
  messages.getLast?.bind fun m => m.tool_calls.map fun tcs => decide (0 < tcs.length)

/-- The `if self.system:` branch of `Agent.call_openai`:
`messages = [SystemMessage(content=self.system)] + messages` (Python string
truthiness: the branch is taken iff `system` is non-empty). -/
def systemPrompted (system : String) (messages : List Message) : List Message :=
  if system ≠ "" then Message.system system :: messages else messages

/-- The `self.system = ""` assignment inside the same branch. -/
def clearSystem (system : String) : String :=
  if system ≠ "" then "" else system

/-- Embeds `Agent.call_openai`: returns the model input actually sent, the new value
of `self.system`, and the assistant message produced by the model. -/
def call_openai (model : List Message → String × List ToolCall)
    (system : String) (messages : List Message) :
    List Message × String × Message :=
  let input := systemPrompted system messages
  (input, clearSystem system, Message.ai (model input).1 (model input).2)

/-- Embeds `Agent.take_action`: reads `state["messages"][-1].tool_calls` and maps
the tool-execution loop over it; `none` models the Python error when the
last message carries no tool calls. -/
def take_action (tools : List Tool) (messages : List Message) :
    Option (List Message) :=
  (messages.getLast?.bind Message.tool_calls).map (executeToolCalls tools)

/-- Result of one `graph.invoke` run: the trace of inputs passed to
`model.invoke` (ghost instrumentation), the number of nodes executed, and
either the final `(self.system, state["messages"])` or the error raised. -/
structure AgentRun where
  trace : List (List Message)
  steps : Nat
  result : Except RunErr (String × List Message)
deriving Repr

/-- The compiled graph's execution loop (`self.graph.invoke`): starting at
`node`, run nodes and follow edges until `END`; executing a node consumes one
unit of the recursion budget and running out of budget before reaching `END`
raises `GraphRecursionError`.  State updates follow the `operator.add`
reducer: each node's returned messages are appended. -/
def agentGraphRun (model : List Message → String × List ToolCall)
    (tools : List Tool) :
    Nat → ANode → String → List Message → List (List Message) → Nat → AgentRun
  | 0, node, system, messages, trace, steps =>
    if node = ANode.END then ⟨trace, steps, .ok (system, messages)⟩
    else ⟨trace, steps, .error .recursionLimitExceeded⟩
  | fuel + 1, node, system, messages, trace, steps =>
    match node with
    | ANode.END => ⟨trace, steps, .ok (system, messages)⟩
    | ANode.llm =>
      let r := call_openai model system messages
      let messages' := messages ++ [r.2.2]
      let trace' := trace ++ [r.1]
      match exists_action messages' with
      | none => ⟨trace', steps + 1, .error .attributeError⟩
      | some b =>
        agentGraphRun model tools fuel (llmConditionalEdge b) r.2.1 messages'
          trace' (steps + 1)
    | ANode.action =>
      match take_action tools messages with
      | none => ⟨trace, steps + 1, .error .attributeError⟩
      | some results =>
        agentGraphRun model tools fuel actionEdge system (messages ++ results)
          trace (steps + 1)

/-- The `config={"recursion_limit": 50}` literal passed by `Agent.ask`. -/
def recursion_limit : Nat := 50

/-- Embeds `Agent.ask` up to the `graph.invoke` call: wrap the question as a
`HumanMessage` and run the graph from its entry point `"llm"` under the
recursion limit. -/
def askRun (model : List Message → String × List ToolCall)
    (tools : List Tool) (system : String) (question : String) : AgentRun :=
  agentGraphRun model tools recursion_limit ANode.llm system
    [Message.human question] [] 0

/-- Embeds `Agent.ask`: returns `result["messages"][-1]` (the `[-1]` index on an
empty list would raise, modelled by `indexError`). -/
def ask (model : List Message → String × List ToolCall)
    (tools : List Tool) (system : String) (question : String) :
    Except RunErr Message :=
  match (askRun model tools system question).result with
  | .error e => .error e
  | .ok p =>
    match p.2.getLast? with
    | some m => .ok m
    | none => .error RunErr.indexError

end SrcAgent

namespace Wiseguy

/-- One element of the wiseguy state's `messages` list.  `init_state` returns
`{"messages": [SystemMessage(content=self.system) if self.system else []]}`,
so besides `Message` objects the list can also contain a plain empty Python
list, modelled by the `emptyList` constructor. -/
inductive Entry where
  | msg (m : Message)
  | emptyList
deriving DecidableEq, Repr

/-- Python attribute access `e.tool_calls` on a state entry: an empty list
object has no such attribute either. -/
def Entry.tool_calls : Entry → Option (List ToolCall)
  | .msg m => m.tool_calls
  | .emptyList => none

/-- Whether an entry is a `SystemMessage`. -/
def Entry.isSystem : Entry → Bool
  | .msg m => m.isSystem
  | .emptyList => false

/-- Nodes of the wiseguy graph: `"init"`, `"llm"`, `"action"` and `END`. -/
inductive WNode where
  | init
  | llm
  | action
  | END
deriving DecidableEq, Repr

/-- The unconditional edge `graph.add_edge("init", "llm")`. -/
def initEdge : WNode := WNode.llm

/-- The conditional-edge mapping `{True: "action", False: END}` attached to
the `"llm"` node. -/
def llmConditionalEdge (b : Bool) : WNode :=
  if b then WNode.action else WNode.END

/-- The unconditional edge `graph.add_edge("action", "llm")`. -/
def actionEdge : WNode := WNode.llm

/-- Embeds `Agent.init_state`: the messages delta
`[SystemMessage(content=self.system) if self.system else []]` — always a
one-element list, whose element is a `SystemMessage` when `self.system` is
truthy (non-empty) and a plain empty list otherwise. -/
def init_state (system : String) : List Entry :=
  [if system ≠ "" then Entry.msg (Message.system system) else Entry.emptyList]

/-- Embeds `Agent.exists_action` (wiseguy):
`len(state["messages"][-1].tool_calls) > 0`. -/
def exists_action (messages : List Entry) : Option Bool :=
  messages.getLast?.bind fun e => e.tool_calls.map fun tcs => decide (0 < tcs.length)

/-- Embeds `Agent.call_openai` (wiseguy): no system-prompt handling; it simply
invokes the model on the accumulated state. -/
def call_openai (model : List Entry → String × List ToolCall)
    (messages : List Entry) : Message :=
  Message.ai (model messages).1 (model messages).2

/-- Embeds `Agent.take_action` (wiseguy): identical dispatch loop over the last
entry's `tool_calls`. -/
def take_action (tools : List Tool) (messages : List Entry) :
    Option (List Entry) :=
  (messages.getLast?.bind Entry.tool_calls).map fun tcs =>
    (executeToolCalls tools tcs).map Entry.msg

/-- The value `self.config["recursion_limit"]`, set to `50` in `Agent.__init__`. -/
def recursion_limit : Nat := 50

/-- The value `self.config["configurable"]["thread_id"]`. -/
def thread_id : String := "1"

/-- Result of one wiseguy `graph.invoke` run: nodes executed and either the
final `state["messages"]` or the error raised. -/
structure WiseguyRun where
  steps : Nat
  result : Except RunErr (List Entry)
deriving Repr

/-- The wiseguy compiled graph's execution loop, with `self.system` fixed
(this variant never mutates it).  Same budget discipline as the other
variant: one budget unit per node executed, `GraphRecursionError` when the
budget runs out before `END`. -/
def wiseguyRun (model : List Entry → String × List ToolCall)
    (tools : List Tool) (system : String) :
    Nat → WNode → List Entry → Nat → WiseguyRun
  | 0, node, messages, steps =>
    if node = WNode.END then ⟨steps, .ok messages⟩
    else ⟨steps, .error .recursionLimitExceeded⟩
  | fuel + 1, node, messages, steps =>
    match node with
    | WNode.END => ⟨steps, .ok messages⟩
    | WNode.init =>
      wiseguyRun model tools system fuel initEdge
        (messages ++ init_state system) (steps + 1)
    | WNode.llm =>
      let messages' := messages ++ [Entry.msg (call_openai model messages)]
      match exists_action messages' with
      | none => ⟨steps + 1, .error .attributeError⟩
      | some b =>
        wiseguyRun model tools system fuel (llmConditionalEdge b) messages'
          (steps + 1)
    | WNode.action =>
      match take_action tools messages with
      | none => ⟨steps + 1, .error .attributeError⟩
      | some results =>
        wiseguyRun model tools system fuel actionEdge (messages ++ results)
          (steps + 1)

/-- Embeds `self.graph.invoke(input=..., config=self.config)` on a graph compiled
with `checkpointer=InMemorySaver()`: the input messages are appended (by the
`operator.add` reducer) to the checkpointed state of the thread, then the
graph runs from its entry point `"init"` under the configured recursion
limit. -/
def graphInvoke (model : List Entry → String × List ToolCall)
    (tools : List Tool) (system : String)
    (saved : List Entry) (input : List Entry) : WiseguyRun :=
  wiseguyRun model tools system recursion_limit WNode.init (saved ++ input) 0

/-- Embeds `Agent.ask` (wiseguy): wraps the question as a `HumanMessage`; with
`sync=True` it returns the value of `self.__invoke(messages)`, which is the
*whole* result state returned by `graph.invoke` (not its last message); with
`sync=False` the async streaming branch returns `None`, modelled by
`none`. -/
def ask (model : List Entry → String × List ToolCall)
    (tools : List Tool) (system : String) (saved : List Entry)
    (question : String) (sync : Bool) : Option WiseguyRun :=
  let messages := [Entry.msg (Message.human question)]
  if sync then some (graphInvoke model tools system saved messages) else none

/-- Checkpointed state of the thread after a turn: what `InMemorySaver`
stores for the wiseguy thread once `graph.invoke` completes (unchanged when
the turn raises). -/
def stateAfter (model : List Entry → String × List ToolCall)
    (tools : List Tool) (system : String) (saved : List Entry)
    (question : String) : List Entry :=
  match (graphInvoke model tools system saved
      [Entry.msg (Message.human question)]).result with
  | .ok s => s
  | .error _ => saved

/-- How many entries of the state are `SystemMessage`s. -/
def countSystemEntries (es : List Entry) : Nat :=
  es.countP fun e => e.isSystem

/-- The attributes defined on the wiseguy `Agent` class (its class body,
its methods, and the fields assigned in `__init__`), read off
`src/wiseguy/agent.py`.  Note there is no `print_graph` among them. -/
def agentAttributes : List String :=
  ["_current_state", "system", "verbose", "config", "graph", "tools", "model",
    "init_state", "exists_action", "call_openai", "take_action", "ask"]

/-- Observable outcome of running the wiseguy CLI entry point. -/
inductive CliOutcome where
  | printedGraph
  | attributeErrorCrash (attr : String)
  | interactive
deriving DecidableEq, Repr

/-- Embeds `main` of `src/wiseguy/__main__.py` up to the greeting: if a first
argument is present and strips to `--print-graph`, it evaluates
`agent.print_graph()` — an attribute lookup on the `Agent` object, which
raises `AttributeError` when the class defines no such attribute — and
returns; otherwise it enters the interactive loop.  `argv` models
`sys.argv[1:]`. -/
def wiseguyMain (argv : List String) : CliOutcome :=
  match argv with
  | arg :: _ =>
    if pyStrip arg = "--print-graph" then
      if agentAttributes.contains "print_graph" then CliOutcome.printedGraph
      else CliOutcome.attributeErrorCrash "print_graph"
    else CliOutcome.interactive
  | [] => CliOutcome.interactive

/-- The interactive `while True` read-loop of `main`, over a finite list of
input lines, parametrised by the effect of one turn (`agent.ask`).  Faithful
to the source, the loop body contains no exception handler: an error raised
by a turn propagates out of the loop (crashing the process).  Returns the
lines for which a turn was started, and the error that escaped, if any. -/
def interactiveLoop (turn : String → Except RunErr Unit) :
    List String → List String × Option RunErr
  | [] => ([], none)
  | line :: rest =>
    if pyLower (pyStrip line) = "" then ([], none)
    else
      match turn line with
      | .error e => ([line], some e)
      | .ok _ =>
        let r := interactiveLoop turn rest
        (line :: r.1, r.2)

end Wiseguy

/-- A model oracle that always answers `"respuesta"` with no tool calls. -/
def simpleModel : List Wiseguy.Entry → String × List ToolCall :=
  fun _ => ("respuesta", [])

/-- A model oracle (for the `src/agent` variant) that always answers with no
tool calls. -/
def plainModel : List Message → String × List ToolCall :=
  fun _ => ("hola", [])

/-- A model oracle that requests the same tool call on every invocation, so
the model ⇄ tools cycle never reaches `END`. -/
def loopingModel : List Message → String × List ToolCall :=
  fun _ => ("", [⟨"call-1", "search", "query"⟩])

/-- A turn function that fails on the input line `"boom"` and succeeds on
every other line. -/
def boomTurn : String → Except RunErr Unit :=
  fun line => if line = "boom" then .error RunErr.attributeError else .ok ()

/-! ## Helper lemmas -/

theorem getLast?_append_one {α : Type} (l : List α) (a : α) :
    (l ++ [a]).getLast? = some a := by
  induction l with
  | nil => rfl
  | cons b l ih =>
    rw [List.cons_append, List.getLast?_cons, ih]
    cases l <;> rfl

theorem exists_action_append (msgs : List Message) (c : String)
    (tcs : List ToolCall) :
    SrcAgent.exists_action (msgs ++ [Message.ai c tcs])
      = some (decide (0 < tcs.length)) := by
  unfold SrcAgent.exists_action
  rw [getLast?_append_one]
  rfl

theorem wiseguy_exists_action_append (es : List Wiseguy.Entry) (c : String)
    (tcs : List ToolCall) :
    Wiseguy.exists_action (es ++ [Wiseguy.Entry.msg (Message.ai c tcs)])
      = some (decide (0 < tcs.length)) := by
  unfold Wiseguy.exists_action
  rw [getLast?_append_one]
  rfl

theorem executeToolCalls_no_system (tools : List Tool) (tcs : List ToolCall) :
    (executeToolCalls tools tcs).all (fun m => !m.isSystem) = true := by
  unfold executeToolCalls
  rw [List.all_eq_true]
  intro m hm
  obtain ⟨t, _, rfl⟩ := List.mem_map.1 hm
  rfl

/-! ## Claims -/

/-- C1: the orchestration loop terminates exactly when the model's returned
message contains zero tool calls.  In both variants: after the `"llm"` node
appends the model's message, `exists_action` reports exactly whether that
message's `tool_calls` are non-empty, the conditional edge maps `True` to
`"action"` and `False` to `END`, and the edge out of `"action"` leads
unconditionally back to `"llm"`.  At the driver level: one `"llm"` step
routes through the conditional edge on the appended message's tool calls, a
run that reaches `END` returns the state (whose last message — the answer —
is the model's tool-free message), and one `"action"` step with a resolved
batch appends it and continues at `"llm"`. -/
theorem c1_termination_on_zero_tool_calls :
    (∀ msgs c tcs, SrcAgent.exists_action (msgs ++ [Message.ai c tcs])
        = some (decide (0 < tcs.length)))
    ∧ SrcAgent.llmConditionalEdge true = SrcAgent.ANode.action
    ∧ SrcAgent.llmConditionalEdge false = SrcAgent.ANode.END
    ∧ SrcAgent.actionEdge = SrcAgent.ANode.llm
    ∧ (∀ es c tcs, Wiseguy.exists_action (es ++ [Wiseguy.Entry.msg (Message.ai c tcs)])
        = some (decide (0 < tcs.length)))
    ∧ Wiseguy.llmConditionalEdge true = Wiseguy.WNode.action
    ∧ Wiseguy.llmConditionalEdge false = Wiseguy.WNode.END
    ∧ Wiseguy.actionEdge = Wiseguy.WNode.llm
    ∧ (∀ model tools fuel system msgs trace steps,
        SrcAgent.agentGraphRun model tools (fuel + 1) SrcAgent.ANode.llm system
            msgs trace steps
          = SrcAgent.agentGraphRun model tools fuel
              (SrcAgent.llmConditionalEdge
                (decide (0 < (model (SrcAgent.systemPrompted system msgs)).2.length)))
              (SrcAgent.clearSystem system)
              (msgs ++ [Message.ai (model (SrcAgent.systemPrompted system msgs)).1
                (model (SrcAgent.systemPrompted system msgs)).2])
              (trace ++ [SrcAgent.systemPrompted system msgs]) (steps + 1))
    ∧ (∀ model tools fuel system msgs trace steps,
        (SrcAgent.agentGraphRun model tools fuel SrcAgent.ANode.END system msgs
            trace steps).result = .ok (system, msgs))
    ∧ (∀ model tools fuel system msgs trace steps,
        SrcAgent.agentGraphRun model tools (fuel + 1) SrcAgent.ANode.action
            system msgs trace steps
          = match SrcAgent.take_action tools msgs with
            | none => ⟨trace, steps + 1, .error RunErr.attributeError⟩
            | some results =>
              SrcAgent.agentGraphRun model tools fuel SrcAgent.actionEdge system
                (msgs ++ results) trace (steps + 1)) := by
  refine ⟨exists_action_append, rfl, rfl, rfl, wiseguy_exists_action_append,
    rfl, rfl, rfl, ?_, ?_, ?_⟩
  · intro model tools fuel system msgs trace steps
    simp only [SrcAgent.agentGraphRun, SrcAgent.call_openai]
    rw [exists_action_append]
  · intro model tools fuel system msgs trace steps
    cases fuel <;> rfl
  · intro model tools fuel system msgs trace steps
    rfl

/-- C2: a tool call whose name is not a key of the registry does not fail the
turn and invokes no capability: the dispatch produces a `ToolMessage` whose
content is exactly the fixed retry-instruction string, and `take_action`
(in either variant) still succeeds with that batch, so the conversation
continues. -/
theorem c2_unknown_tool_recovered (tools : List Tool) (t : ToolCall)
    (c : String) (msgs : List Message) (es : List Wiseguy.Entry)
    (h : toolsDict tools t.name = none) :
    runToolCall tools t = Message.tool t.id t.name invalidToolName
    ∧ SrcAgent.take_action tools (msgs ++ [Message.ai c [t]])
        = some [Message.tool t.id t.name invalidToolName]
    ∧ Wiseguy.take_action tools (es ++ [Wiseguy.Entry.msg (Message.ai c [t])])
        = some [Wiseguy.Entry.msg (Message.tool t.id t.name invalidToolName)] := by
  have hrun : runToolCall tools t = Message.tool t.id t.name invalidToolName := by
    unfold runToolCall
    rw [h]
  refine ⟨hrun, ?_, ?_⟩
  · unfold SrcAgent.take_action
    rw [getLast?_append_one]
    simp [Message.tool_calls, executeToolCalls, hrun]
  · unfold Wiseguy.take_action
    rw [getLast?_append_one]
    simp [Wiseguy.Entry.tool_calls, Message.tool_calls, executeToolCalls, hrun]

/-- Witness for C2 at a concrete unknown tool name and an empty registry. -/
theorem c2_unknown_tool_recovered_witness :
    toolsDict [] (ToolCall.mk "call-7" "buscar" "x").name = none
    ∧ (runToolCall [] (ToolCall.mk "call-7" "buscar" "x")
          = Message.tool "call-7" "buscar" invalidToolName
       ∧ SrcAgent.take_action []
            ([] ++ [Message.ai "" [ToolCall.mk "call-7" "buscar" "x"]])
          = some [Message.tool "call-7" "buscar" invalidToolName]
       ∧ Wiseguy.take_action []
            ([] ++ [Wiseguy.Entry.msg (Message.ai "" [ToolCall.mk "call-7" "buscar" "x"])])
          = some [Wiseguy.Entry.msg (Message.tool "call-7" "buscar" invalidToolName)]) :=
  ⟨rfl, c2_unknown_tool_recovered [] (ToolCall.mk "call-7" "buscar" "x") "" [] [] rfl⟩

/-- C3: `take_action` produces exactly one tool-result message per call
(the batch has the same length), the message at each position is the
dispatch of the call at the same position (so relative order is preserved),
and it carries the originating call's id as `tool_call_id` and the call's
name. -/
theorem c3_tool_result_correlation (tools : List Tool) (tcs : List ToolCall) :
    (executeToolCalls tools tcs).length = tcs.length
    ∧ ∀ (i : Nat) (t : ToolCall), tcs[i]? = some t →
        (executeToolCalls tools tcs)[i]? = some (runToolCall tools t)
        ∧ (runToolCall tools t).tool_call_id = some t.id
        ∧ (runToolCall tools t).name = some t.name := by
  refine ⟨List.length_map tcs (runToolCall tools), ?_⟩
  intro i t ht
  refine ⟨?_, rfl, rfl⟩
  unfold executeToolCalls
  rw [List.getElem?_map, ht]
  rfl

/-- Witness for C3 on a concrete two-call batch. -/
theorem c3_tool_result_correlation_witness :
    ([ToolCall.mk "id-a" "na" "x", ToolCall.mk "id-b" "nb" "y"] :
        List ToolCall)[0]? = some (ToolCall.mk "id-a" "na" "x")
    ∧ ((executeToolCalls [] [ToolCall.mk "id-a" "na" "x", ToolCall.mk "id-b" "nb" "y"])[0]?
          = some (runToolCall [] (ToolCall.mk "id-a" "na" "x"))
       ∧ (runToolCall [] (ToolCall.mk "id-a" "na" "x")).tool_call_id = some "id-a"
       ∧ (runToolCall [] (ToolCall.mk "id-a" "na" "x")).name = some "na") :=
  ⟨rfl, (c3_tool_result_correlation []
      [ToolCall.mk "id-a" "na" "x", ToolCall.mk "id-b" "nb" "y"]).2 0
      (ToolCall.mk "id-a" "na" "x") rfl⟩

theorem agentGraphRun_steps_le (model : List Message → String × List ToolCall)
    (tools : List Tool) :
    ∀ fuel node system msgs trace steps,
      (SrcAgent.agentGraphRun model tools fuel node system msgs trace
          steps).steps ≤ steps + fuel := by
  intro fuel
  induction fuel with
  | zero =>
    intro node system msgs trace steps
    simp only [SrcAgent.agentGraphRun]
    split <;> simp
  | succ fuel ih =>
    intro node system msgs trace steps
    cases node with
    | END => simp [SrcAgent.agentGraphRun]
    | llm =>
      simp only [SrcAgent.agentGraphRun]
      split
      · simp
      · calc (SrcAgent.agentGraphRun model tools fuel _ _ _ _ (steps + 1)).steps
            ≤ (steps + 1) + fuel := ih _ _ _ _ _
          _ = steps + (fuel + 1) := by omega
    | action =>
      simp only [SrcAgent.agentGraphRun]
      split
      · simp
      · calc (SrcAgent.agentGraphRun model tools fuel _ _ _ _ (steps + 1)).steps
            ≤ (steps + 1) + fuel := ih _ _ _ _ _
          _ = steps + (fuel + 1) := by omega

theorem wiseguyRun_steps_le (model : List Wiseguy.Entry → String × List ToolCall)
    (tools : List Tool) (system : String) :
    ∀ fuel node msgs steps,
      (Wiseguy.wiseguyRun model tools system fuel node msgs steps).steps
        ≤ steps + fuel := by
  intro fuel
  induction fuel with
  | zero =>
    intro node msgs steps
    simp only [Wiseguy.wiseguyRun]
    split <;> simp
  | succ fuel ih =>
    intro node msgs steps
    cases node with
    | END => simp [Wiseguy.wiseguyRun]
    | init =>
      calc (Wiseguy.wiseguyRun model tools system fuel _ _ (steps + 1)).steps
          ≤ (steps + 1) + fuel := ih _ _ _
        _ = steps + (fuel + 1) := by omega
    | llm =>
      simp only [Wiseguy.wiseguyRun]
      split
      · simp
      · calc (Wiseguy.wiseguyRun model tools system fuel _ _ (steps + 1)).steps
            ≤ (steps + 1) + fuel := ih _ _ _
          _ = steps + (fuel + 1) := by omega
    | action =>
      simp only [Wiseguy.wiseguyRun]
      split
      · simp
      · calc (Wiseguy.wiseguyRun model tools system fuel _ _ (steps + 1)).steps
            ≤ (steps + 1) + fuel := ih _ _ _
          _ = steps + (fuel + 1) := by omega

/-- C4: the graph execution never runs more node transitions than the
configured recursion limit (a parameter of the execution loop), both `ask`
entry points configure that limit to `50`, and an execution that would
exceed the bound (here: a model that requests a tool call on every
invocation) fails with the recursion-limit error instead of looping
forever. -/
theorem c4_recursion_limit_bound :
    SrcAgent.recursion_limit = 50
    ∧ Wiseguy.recursion_limit = 50
    ∧ (∀ model tools system question,
        (SrcAgent.askRun model tools system question).steps
          ≤ SrcAgent.recursion_limit)
    ∧ (∀ model tools system saved input,
        (Wiseguy.graphInvoke model tools system saved input).steps
          ≤ Wiseguy.recursion_limit)
    ∧ (SrcAgent.askRun loopingModel [] "" "pregunta").result
        = .error RunErr.recursionLimitExceeded
    ∧ SrcAgent.ask loopingModel [] "" "pregunta"
        = .error RunErr.recursionLimitExceeded := by
  refine ⟨rfl, rfl, ?_, ?_, rfl, rfl⟩
  · intro model tools system question
    simpa using agentGraphRun_steps_le model tools SrcAgent.recursion_limit
      SrcAgent.ANode.llm system [Message.human question] [] 0
  · intro model tools system saved input
    simpa using wiseguyRun_steps_le model tools system Wiseguy.recursion_limit
      Wiseguy.WNode.init (saved ++ input) 0

/-- C5 (code bug): in the wiseguy variant the `"init"` node runs on *every*
turn of the checkpointed thread and appends a fresh `SystemMessage` each
time (and after the turn's user message, not before it): after two turns
with a configured system prompt the conversation state contains the system
message twice, contradicting the at-most-once claim and the class's own
docstring ("se añadirá una vez al principio"). -/
theorem c5_system_message_appended_every_turn :
    Wiseguy.stateAfter simpleModel [] "S" [] "q1"
      = [Wiseguy.Entry.msg (Message.human "q1"),
         Wiseguy.Entry.msg (Message.system "S"),
         Wiseguy.Entry.msg (Message.ai "respuesta" [])]
    ∧ Wiseguy.countSystemEntries
        (Wiseguy.stateAfter simpleModel [] "S"
          (Wiseguy.stateAfter simpleModel [] "S" [] "q1") "q2") = 2 :=
  ⟨rfl, rfl⟩

/-- C6 (code bug): `Agent.ask` (wiseguy) with `sync=True` returns the value
of `graph.invoke` unchanged — the whole result state (here a three-entry
message list), not the final assistant message `result["messages"][-1]`
promised by its docstring and return annotation. -/
theorem c6_sync_ask_returns_whole_state :
    Wiseguy.ask simpleModel [] "S" [] "hola" true
      = some ⟨2, .ok [Wiseguy.Entry.msg (Message.human "hola"),
                      Wiseguy.Entry.msg (Message.system "S"),
                      Wiseguy.Entry.msg (Message.ai "respuesta" [])]⟩ :=
  rfl

/-- C7 (code bug): the wiseguy `Agent` class defines no `print_graph`
attribute, so `main` invoked with `--print-graph` crashes with an
`AttributeError` instead of printing the state-machine diagram. -/
theorem c7_print_graph_attribute_missing :
    Wiseguy.agentAttributes.contains "print_graph" = false
    ∧ Wiseguy.wiseguyMain ["--print-graph"]
        = Wiseguy.CliOutcome.attributeErrorCrash "print_graph"
    ∧ Wiseguy.wiseguyMain ["--print-graph"] ≠ Wiseguy.CliOutcome.printedGraph := by
  refine ⟨by decide, by decide, by decide⟩

/-- C8 counterexample: the interactive read-loop contains no exception
handler, so with a turn that fails on the line `"boom"`, the error escapes
the loop (crashing the process) and the following line `"next"` is never
read — refuting the claim that the loop reports the error and starts a
fresh turn on the next input line. -/
theorem c8_counterexample :
    Wiseguy.interactiveLoop boomTurn ["boom", "next", ""]
      = (["boom"], some RunErr.attributeError)
    ∧ ¬ ("next" ∈ (Wiseguy.interactiveLoop boomTurn ["boom", "next", ""]).1
         ∧ (Wiseguy.interactiveLoop boomTurn ["boom", "next", ""]).2 = none) := by
  refine ⟨by decide, by decide⟩

/-- C8 amended: the interactive read-loop catches nothing: a turn-level
failure on a (non-terminating) input line propagates out of the loop and no
later input line is read; only when a turn succeeds does the loop read the
next line. -/
theorem c8_amended_failure_propagates (turn : String → Except RunErr Unit)
    (line : String) (rest : List String) (e : RunErr)
    (hline : ¬ pyLower (pyStrip line) = "") (hfail : turn line = .error e) :
    Wiseguy.interactiveLoop turn (line :: rest) = ([line], some e) := by
  simp only [Wiseguy.interactiveLoop, if_neg hline, hfail]

/-- Witness for the amended C8 at a concrete failing line. -/
theorem c8_amended_failure_propagates_witness :
    (¬ pyLower (pyStrip "boom") = "") ∧ boomTurn "boom" = .error RunErr.attributeError
    ∧ Wiseguy.interactiveLoop boomTurn ["boom", "next"]
        = (["boom"], some RunErr.attributeError) :=
  ⟨by decide, rfl,
    c8_amended_failure_propagates boomTurn "boom" ["next"]
      RunErr.attributeError (by decide) rfl⟩

/-- C10: when the wiseguy agent is constructed with an empty system string,
`init_state` still returns a one-element messages delta whose element is a
plain empty Python list, not a `Message`; consequently the conversation
state after a turn contains a non-`Message` entry. -/
theorem c10_empty_system_gives_empty_list_entry :
    Wiseguy.init_state "" = [Wiseguy.Entry.emptyList]
    ∧ (∀ m : Message, Wiseguy.Entry.emptyList ≠ Wiseguy.Entry.msg m)
    ∧ Wiseguy.Entry.emptyList ∈ Wiseguy.stateAfter simpleModel [] "" [] "hola" := by
  refine ⟨rfl, ?_, by decide⟩
  intro m h
  cases h

theorem agentGraphRun_llm_step (model : List Message → String × List ToolCall)
    (tools : List Tool) (fuel : Nat) (system : String) (msgs : List Message)
    (trace : List (List Message)) (steps : Nat) :
    SrcAgent.agentGraphRun model tools (fuel + 1) SrcAgent.ANode.llm system
        msgs trace steps
      = SrcAgent.agentGraphRun model tools fuel
          (SrcAgent.llmConditionalEdge
            (decide (0 < (model (SrcAgent.systemPrompted system msgs)).2.length)))
          (SrcAgent.clearSystem system)
          (msgs ++ [Message.ai (model (SrcAgent.systemPrompted system msgs)).1
            (model (SrcAgent.systemPrompted system msgs)).2])
          (trace ++ [SrcAgent.systemPrompted system msgs]) (steps + 1) := by
  simp only [SrcAgent.agentGraphRun, SrcAgent.call_openai]
  rw [exists_action_append]

theorem agentGraphRun_end_trace (model : List Message → String × List ToolCall)
    (tools : List Tool) (fuel : Nat) (system : String) (msgs : List Message)
    (trace : List (List Message)) (steps : Nat) :
    (SrcAgent.agentGraphRun model tools fuel SrcAgent.ANode.END system msgs
        trace steps).trace = trace := by
  cases fuel <;> rfl

theorem agentGraphRun_end_result (model : List Message → String × List ToolCall)
    (tools : List Tool) (fuel : Nat) (system : String) (msgs : List Message)
    (trace : List (List Message)) (steps : Nat) :
    (SrcAgent.agentGraphRun model tools fuel SrcAgent.ANode.END system msgs
        trace steps).result = .ok (system, msgs) := by
  cases fuel <;> rfl

theorem agentGraphRun_no_system (model : List Message → String × List ToolCall)
    (tools : List Tool) :
    ∀ fuel node msgs trace steps,
      msgs.all (fun m => !m.isSystem) = true →
      ∃ ext,
        (SrcAgent.agentGraphRun model tools fuel node "" msgs trace
            steps).trace = trace ++ ext
        ∧ ext.all (fun t => t.all (fun m => !m.isSystem)) = true
        ∧ ∀ sys out,
            (SrcAgent.agentGraphRun model tools fuel node "" msgs trace
                steps).result = .ok (sys, out) →
              sys = "" ∧ out.all (fun m => !m.isSystem) = true := by
  intro fuel
  induction fuel with
  | zero =>
    intro node msgs trace steps hclean
    by_cases hn : node = SrcAgent.ANode.END
    · subst hn
      refine ⟨[], by simp [SrcAgent.agentGraphRun], rfl, ?_⟩
      intro sys out hok
      have h2 : Except.ok (ε := RunErr) (("" : String), msgs) = .ok (sys, out) := hok
      simp only [Except.ok.injEq, Prod.mk.injEq] at h2
      exact ⟨h2.1.symm, h2.2 ▸ hclean⟩
    · refine ⟨[], ?_, rfl, ?_⟩
      · simp [SrcAgent.agentGraphRun, if_neg hn]
      · intro sys out hok
        rw [show (SrcAgent.agentGraphRun model tools 0 node "" msgs trace
            steps).result = .error RunErr.recursionLimitExceeded by
          simp [SrcAgent.agentGraphRun, if_neg hn]] at hok
        exact absurd hok (by simp)
  | succ fuel ih =>
    intro node msgs trace steps hclean
    cases node with
    | END =>
      refine ⟨[], by simp [agentGraphRun_end_trace], rfl, ?_⟩
      intro sys out hok
      rw [agentGraphRun_end_result] at hok
      simp only [Except.ok.injEq, Prod.mk.injEq] at hok
      exact ⟨hok.1.symm, hok.2 ▸ hclean⟩
    | llm =>
      rw [agentGraphRun_llm_step]
      rw [show SrcAgent.clearSystem "" = "" from rfl]
      have hsp : SrcAgent.systemPrompted "" msgs = msgs := rfl
      have hmc : (msgs ++ [Message.ai (model (SrcAgent.systemPrompted "" msgs)).1
          (model (SrcAgent.systemPrompted "" msgs)).2]).all
            (fun m => !m.isSystem) = true := by
        rw [List.all_append, hclean]
        rfl
      obtain ⟨ext, h1, h2, h3⟩ := ih
        (SrcAgent.llmConditionalEdge
          (decide (0 < (model (SrcAgent.systemPrompted "" msgs)).2.length)))
        _ (trace ++ [SrcAgent.systemPrompted "" msgs]) (steps + 1) hmc
      refine ⟨SrcAgent.systemPrompted "" msgs :: ext, ?_, ?_, h3⟩
      · rw [h1, List.append_assoc]
        rfl
      · rw [List.all_cons, hsp, hclean, h2]
        rfl
    | action =>
      cases hta : SrcAgent.take_action tools msgs with
      | none =>
        refine ⟨[], ?_, rfl, ?_⟩
        · simp [SrcAgent.agentGraphRun, hta]
        · intro sys out hok
          rw [show (SrcAgent.agentGraphRun model tools (fuel + 1)
              SrcAgent.ANode.action "" msgs trace steps).result
                = .error RunErr.attributeError by
            simp [SrcAgent.agentGraphRun, hta]] at hok
          exact absurd hok (by simp)
      | some results =>
        have hstep : SrcAgent.agentGraphRun model tools (fuel + 1)
            SrcAgent.ANode.action "" msgs trace steps
              = SrcAgent.agentGraphRun model tools fuel SrcAgent.actionEdge ""
                  (msgs ++ results) trace (steps + 1) := by
          simp [SrcAgent.agentGraphRun, hta]
        rw [hstep]
        have hres : results.all (fun m => !m.isSystem) = true := by
          unfold SrcAgent.take_action at hta
          obtain ⟨tcs, _, rfl⟩ := Option.map_eq_some'.1 hta
          exact executeToolCalls_no_system tools tcs
        have hmc : (msgs ++ results).all (fun m => !m.isSystem) = true := by
          rw [List.all_append, hclean, hres]
          rfl
        exact ih SrcAgent.actionEdge _ trace (steps + 1) hmc

/-- C9: in the `src/agent` variant the system prompt is never appended to
the conversation state: with a non-empty configured prompt, the prompt is
prepended only to the input of the first model invocation of the run
(the trace's head), every later model invocation receives a history with no
system message, and when the run completes the stored prompt is cleared
(`self.system = ""`) and the final conversation state contains no system
message. -/
theorem c9_system_prompt_only_first_model_input
    (model : List Message → String × List ToolCall) (tools : List Tool)
    (s q : String) (h : s ≠ "") :
    (SrcAgent.askRun model tools s q).trace.head?
      = some (Message.system s :: [Message.human q])
    ∧ (SrcAgent.askRun model tools s q).trace.tail.all
        (fun t => t.all (fun m => !m.isSystem)) = true
    ∧ (∀ sys out, (SrcAgent.askRun model tools s q).result = .ok (sys, out) →
        sys = "" ∧ out.all (fun m => !m.isSystem) = true) := by
  have hask : SrcAgent.askRun model tools s q
      = SrcAgent.agentGraphRun model tools (49 + 1) SrcAgent.ANode.llm s
          [Message.human q] [] 0 := rfl
  rw [hask, agentGraphRun_llm_step]
  rw [show SrcAgent.clearSystem s = "" from if_pos h]
  have hsp : SrcAgent.systemPrompted s [Message.human q]
      = Message.system s :: [Message.human q] := if_pos h
  have hmc : ([Message.human q] ++ [Message.ai
      (model (SrcAgent.systemPrompted s [Message.human q])).1
      (model (SrcAgent.systemPrompted s [Message.human q])).2]).all
        (fun m => !m.isSystem) = true := rfl
  obtain ⟨ext, h1, h2, h3⟩ := agentGraphRun_no_system model tools 49
    (SrcAgent.llmConditionalEdge
      (decide (0 < (model (SrcAgent.systemPrompted s [Message.human q])).2.length)))
    _ ([] ++ [SrcAgent.systemPrompted s [Message.human q]]) 1 hmc
  refine ⟨?_, ?_, h3⟩
  · rw [h1, hsp]
    rfl
  · rw [h1]
    simpa using h2

/-- Witness for C9 at a concrete model, system prompt and question. -/
theorem c9_system_prompt_only_first_model_input_witness :
    (("S" : String) ≠ "")
    ∧ (SrcAgent.askRun plainModel [] "S" "q").trace.head?
        = some (Message.system "S" :: [Message.human "q"]) :=
  ⟨by decide,
    (c9_system_prompt_only_first_model_input plainModel [] "S" "q"
      (by decide)).1⟩

end WebSeeker
